import Mathlib

/-
Verification development for the Quatch-Mobile visual-verification harness.

The repository consists of standalone Playwright scripts that drive a headless
browser against a running card-game application and capture screenshots.  We
embed the observable behaviour of each script as a pure Lean function from the
outcomes of its fallible steps (navigation, readiness waits, clicks, captures)
to the trace of events the script performs, and we embed the Phase Timeline
Scheduler, the Interaction Driver click contract and the Capture Sink contract
described in the design document as pure functions.  All durations are in
milliseconds and are modelled as rationals.
-/

namespace Quatch

/-- An observable action performed by a verification script.  Timeouts are in
milliseconds; `none` means the engine default is used. -/
inductive Event
  | launch
  | newPage
  | navigate (url : String) (timeoutMs : Option Nat)
  | waitSelector (selector : String)
  | click (selector : String) (force : Bool)
  | sleep (ms : Nat)
  | screenshot (path : String)
  | printMsg (msg : String)
  | close
deriving DecidableEq, Repr

/-- The outcome of one fallible step of a script: it either returns normally or
raises an exception carrying a message. -/
inductive Outcome
  | ok
  | raises (msg : String)
deriving DecidableEq, Repr

/-- An exception propagating out of a run.  `context` records the previously
caught exception that was being handled when this one was raised, mirroring
implicit exception chaining in the source language. -/
structure Raised where
  msg : String
  context : Option String
deriving DecidableEq, Repr

/-- Run a sequence of (event, outcome) steps in order: each step records its
event; the first step that raises aborts the rest and its message is returned. -/
def runSteps : List (Event × Outcome) → List Event × Option String
  | [] => ([], none)
  | (ev, Outcome.ok) :: rest =>
      let r := runSteps rest
      (ev :: r.1, r.2)
  | (ev, Outcome.raises s) :: _ => ([ev], some s)

/-- Number of occurrences of one event in a trace. -/
def countEvent (ev : Event) : List Event → Nat
  | [] => 0
  | x :: xs => (if x = ev then 1 else 0) + countEvent ev xs

/-- Number of trace events satisfying a predicate. -/
def countMatching (p : Event → Bool) : List Event → Nat
  | [] => 0
  | x :: xs => (if p x then 1 else 0) + countMatching p xs

def isNavigate : Event → Bool
  | Event.navigate _ _ => true
  | _ => false

def isWaitSelector : Event → Bool
  | Event.waitSelector _ => true
  | _ => false

def isClick : Event → Bool
  | Event.click _ _ => true
  | _ => false

def isScreenshot : Event → Bool
  | Event.screenshot _ => true
  | _ => false

/-- The output files a trace writes: the paths of its screenshots, in order. -/
def writesOf : List Event → List String
  | [] => []
  | Event.screenshot p :: xs => p :: writesOf xs
  | _ :: xs => writesOf xs

/-- The last event of a trace, if any. -/
def lastEvent : List Event → Option Event
  | [] => none
  | [x] => some x
  | _ :: x :: xs => lastEvent (x :: xs)

/-! ## Phase Timeline Scheduler -/

/-- Modelled from the spec: the Phase Timeline Scheduler is described in the
design document but is not present as code under src/ (the scripts hardcode
their sleeps; the scheduler is the abstraction the document derives from them).
`cumulativeOffsets` maps per-phase nominal durations to cumulative offsets,
satisfying `cumulativeOffset[i] = sum of nominalDuration[0..i-1]`. -/
def cumulativeOffsets : List ℚ → List ℚ
  | [] => []
  | d :: ds => 0 :: (cumulativeOffsets ds).map (fun c => d + c)

/-- Modelled from the spec: the desired capture point of phase i is
`cumulativeOffset[i] + fraction[i] * nominalDuration[i]`. -/
def targetOffsets (durations fractions : List ℚ) : List ℚ :=
  List.zipWith (fun cd f => cd.1 + f * cd.2)
    ((cumulativeOffsets durations).zip durations) fractions

/-- One processed phase of the scheduler: its target offset, the elapsed time
when it was processed, and the wait issued before its capture. -/
structure PhaseStep where
  target : ℚ
  elapsedBefore : ℚ
  wait : ℚ
deriving DecidableEq, Repr

/-- Modelled from the spec: the scheduler's core loop.  For each phase in
declared order it computes `delta = targetOffset[i] - elapsed`; if `delta > 0`
it suspends for `delta` and sets `elapsed = targetOffset[i]`; otherwise (time
already passed this point) it skips the wait and captures immediately.  Each
emitted step is immediately followed by the phase's capture. -/
def scheduleSteps : List ℚ → ℚ → List PhaseStep
  | [], _ => []
  | t :: ts, e =>
    if e < t then
      { target := t, elapsedBefore := e, wait := t - e } :: scheduleSteps ts t
    else
      { target := t, elapsedBefore := e, wait := 0 } :: scheduleSteps ts e

/-- The waits issued by the scheduler, in phase order. -/
def scheduleWaits (targets : List ℚ) (elapsed : ℚ) : List ℚ :=
  (scheduleSteps targets elapsed).map PhaseStep.wait

/-- Modelled from the spec: a full scheduler call.  The caller supplies the
current best-known durations and fractions; elapsed starts at 0 at the moment
the triggering interaction fires. -/
def scheduleInstructions (durations fractions : List ℚ) : List PhaseStep :=
  scheduleSteps (targetOffsets durations fractions) 0

/-! ## verify_drag_layout.py -/

/-- Outcomes of the fallible steps of verify_drag_layout.py: the steps of its
try block that can raise, plus the diagnostic screenshot of its except block. -/
structure DragOuts where
  goto : Outcome
  waitStart : Outcome
  clickStart : Outcome
  waitHand : Outcome
  shot : Outcome
  diag : Outcome
deriving Repr

def startGameSelector : String := "button:has-text('Start Game')"

/-- The try block of verify_drag_layout.py: navigate, wait for the Start Game
button, click it, wait for the hand container, sleep, screenshot, print. -/
def dragLayoutTry (o : DragOuts) : List (Event × Outcome) :=
  [ (Event.navigate "http://127.0.0.1:5173/Quatch-Mobile/" (some 10000), o.goto),
    (Event.waitSelector startGameSelector, o.waitStart),
    (Event.click startGameSelector false, o.clickStart),
    (Event.waitSelector "#player-hand-container", o.waitHand),
    (Event.sleep 2000, Outcome.ok),
    (Event.screenshot "verification/layout_check.png", o.shot),
    (Event.printMsg "Screenshot saved to verification/layout_check.png",
      Outcome.ok) ]

/-- The whole run of verify_drag_layout.py after the browser is launched: the
try block runs; on an exception the except block prints the error and attempts
a diagnostic screenshot to verification/error_state.png; the finally block
closes the browser on every path.  If the diagnostic screenshot itself raises,
its exception propagates carrying the original error as its context, as the
source language chains exceptions raised inside an except block. -/
def dragLayoutRun (o : DragOuts) : List Event × Option Raised :=
  match runSteps (dragLayoutTry o) with
  | (tr, none) => (Event.launch :: Event.newPage :: (tr ++ [Event.close]), none)
  | (tr, some e) =>
      match o.diag with
      | Outcome.ok =>
          (Event.launch :: Event.newPage :: (tr ++
            [Event.printMsg ("Error during verification: " ++ e),
             Event.screenshot "verification/error_state.png", Event.close]),
           none)
      | Outcome.raises e₂ =>
          (Event.launch :: Event.newPage :: (tr ++
            [Event.printMsg ("Error during verification: " ++ e),
             Event.screenshot "verification/error_state.png", Event.close]),
           some { msg := e₂, context := some e })

/-! ## verify_chaos_shuffle.py -/

/-- Outcomes of the fallible steps of verify_chaos_shuffle.py. -/
structure ChaosOuts where
  goto : Outcome
  waitDeck : Outcome
  clickDeck : Outcome
  shot₁ : Outcome
  shot₂ : Outcome
  shot₃ : Outcome
deriving Repr

/-- The body of verify_chaos_shuffle.py after the browser is launched.  The
script has no exception handler: browser.close() is the last statement of the
straight-line body, so it is reached only when no earlier step raises. -/
def chaosShuffleBody (o : ChaosOuts) : List (Event × Outcome) :=
  [ (Event.launch, Outcome.ok),
    (Event.newPage, Outcome.ok),
    (Event.navigate "http://localhost:3000/Quatch-Mobile/" none, o.goto),
    (Event.waitSelector "#slot-deck", o.waitDeck),
    (Event.click "#slot-deck" false, o.clickDeck),
    (Event.sleep 1200, Outcome.ok),
    (Event.screenshot "verification/shuffle_phase_1_split.png", o.shot₁),
    (Event.sleep 1600, Outcome.ok),
    (Event.screenshot "verification/shuffle_phase_2_merge.png", o.shot₂),
    (Event.sleep 1400, Outcome.ok),
    (Event.screenshot "verification/shuffle_phase_3_return.png", o.shot₃),
    (Event.close, Outcome.ok) ]

/-- A run of verify_chaos_shuffle.py: the first raising step aborts the rest. -/
def chaosShuffleRun (o : ChaosOuts) : List Event × Option String :=
  runSteps (chaosShuffleBody o)

/-! ## verify_layout.py -/

/-- The navigation prologue of verify_layout.py: page.goto with a 30000 ms
timeout inside a try; on any exception the except block prints the error and
issues one more page.goto with the engine default timeout; a failure of the
retry propagates (carrying the first error as context). -/
def layoutNavigate (first retry : Outcome) : List Event × Option Raised :=
  match first with
  | Outcome.ok => ([Event.navigate "http://localhost:3000/Quatch-Mobile/" (some 30000)], none)
  | Outcome.raises e =>
    match retry with
    | Outcome.ok =>
        ([Event.navigate "http://localhost:3000/Quatch-Mobile/" (some 30000),
          Event.printMsg ("Error navigating: " ++ e),
          Event.navigate "http://localhost:3000/Quatch-Mobile/" none], none)
    | Outcome.raises e₂ =>
        ([Event.navigate "http://localhost:3000/Quatch-Mobile/" (some 30000),
          Event.printMsg ("Error navigating: " ++ e),
          Event.navigate "http://localhost:3000/Quatch-Mobile/" none],
         some { msg := e₂, context := some e })

/-! ## Interaction Driver and Capture Sink contracts -/

/-- Errors of the harness's error taxonomy used by the claims below. -/
inductive HarnessError
  | elementNotInteractable
  | elementNotFound
deriving DecidableEq, Repr

/-- The page as the Interaction Driver sees it: whether some other element
visually occludes the element a selector resolves to. -/
structure PageState where
  occludedBy : String → Bool

/-- Result of a click: either the click is dispatched to the target element or
the click is rejected with an error. -/
inductive ClickOutcome
  | dispatched (selector : String)
  | rejected (e : HarnessError)
deriving DecidableEq, Repr

/-- Modelled from the spec: the Interaction Driver click contract is engine
behaviour consumed by the scripts (src/verify_spacing.py calls it with
force=true) and has no implementation under src/.  Under normal mode the click
is rejected with ElementNotInteractable when another element visually occludes
the target; force=true bypasses the occlusion check and dispatches the click
directly to the target element. -/
def click (st : PageState) (selector : String) (force : Bool) : ClickOutcome :=
  if force = false ∧ st.occludedBy selector = true then
    ClickOutcome.rejected HarnessError.elementNotInteractable
  else
    ClickOutcome.dispatched selector

/-- A capture target: the full page or the bounding region of one element. -/
inductive CaptureTarget
  | fullPage
  | scopedElement (selector : String)

/-- Modelled from the spec: the Capture Sink contract is engine behaviour with
no implementation under src/.  A scoped capture fails with ElementNotFound when
the selector resolves to zero elements; a full-page capture writes the file.
`resolve` gives the number of elements a selector resolves to on the page. -/
def capture (resolve : String → Nat) :
    CaptureTarget → String → Except HarnessError Event
  | CaptureTarget.fullPage, path => Except.ok (Event.screenshot path)
  | CaptureTarget.scopedElement sel, path =>
      if resolve sel = 0 then Except.error HarnessError.elementNotFound
      else Except.ok (Event.screenshot path)

/-- The capture tail of verify_layout.py: it checks slot0.count() > 0 first,
captures the element only in that case (printing a fallback message
otherwise), and then always takes a full-page screenshot as backup. -/
def layoutCaptureTail (resolve : String → Nat) :
    List Event × Option HarnessError :=
  let first :=
    if resolve "#player-table-slot-0" > 0 then
      match capture resolve (CaptureTarget.scopedElement "#player-table-slot-0")
          "/home/jules/verification/player_slot_0.png" with
      | Except.ok ev => ([ev, Event.printMsg "Screenshot of slot 0 saved."], none)
      | Except.error e => ([], some e)
    else
      ([Event.printMsg "Slot 0 not found!"], none)
  match first.2 with
  | some e => (first.1, some e)
  | none =>
    match capture resolve CaptureTarget.fullPage
        "/home/jules/verification/full_game.png" with
    | Except.ok ev => (first.1 ++ [ev], none)
    | Except.error e => (first.1, some e)

/-! ## verify_mobile_scale.py -/

/-- The float64 value of the source literal 0.19: the binary64 double nearest
to 19/100 is 6845471433603154 * 2^-55 (the scaled value 19/100 * 2^55 is
6845471433603153.92, which rounds to 6845471433603154).  The exact rational
value of every double involved is used, so the source's floating-point
constants are represented without error. -/
def float019 : ℚ := 6845471433603154 / 2 ^ 55

/-- The expected deck width of verify_mobile_scale.py: expected_width =
390 * 0.19 evaluated in float64.  The exact product 390 * float019 is
2669733859105230060 * 2^-55, which rounds to the double
5214323943564902 * 2^-46 = 74.09999999999999431... (the fraction left after
scaling by 2^46 is 236/512 < 1/2, so the product rounds down).  The check
below subtracts this from the measured width exactly: for every representable
measured width whose difference from this value is anywhere near the 2 px
threshold, the source's float64 subtraction is exact by Sterbenz's lemma (both
operands lie well within a factor of two of each other), and far from the
threshold a half-ulp rounding cannot cross it, so the exact-rational verdict
agrees with the program on every double input. -/
def expectedWidth : ℚ := 5214323943564902 / 2 ^ 46

/-- The verdict the mobile-scale check prints for a measured width. -/
inductive ScaleVerdict
  | success
  | warning
deriving DecidableEq, Repr

/-- The width check of verify_mobile_scale.py: success when the measured width
is within (strictly less than) 2 pixels of the expected width, warning
otherwise. -/
def mobileScaleVerdict (w : ℚ) : ScaleVerdict :=
  if |w - expectedWidth| < 2 then ScaleVerdict.success else ScaleVerdict.warning

/-- The tail of verify_mobile_scale.py once a bounding box was measured: print
the dimensions, print the verdict line, and close the browser; neither verdict
aborts the run. -/
def mobileScaleBoxEvents (w : ℚ) : List Event :=
  [ Event.printMsg "Deck Dimensions",
    (match mobileScaleVerdict w with
     | ScaleVerdict.success =>
         Event.printMsg "SUCCESS: Card width matches 19vw logic"
     | ScaleVerdict.warning =>
         Event.printMsg "WARNING: Card width does not match expected"),
    Event.close ]

/-! ## verify_drag_placeholder.py -/

/-- The whole run of verify_drag_placeholder.py: launch a browser, open a
page, print the placeholder message, close the browser.  No step can raise
and no other action is performed. -/
def dragPlaceholderRun : List Event :=
  [ Event.launch, Event.newPage,
    Event.printMsg
      "Verification script placeholder: Manual verification is required due to environment constraints.",
    Event.close ]

end Quatch

namespace Quatch

/-- C1 (counterexample): with nominal durations [1000, 800, 700] and fractions
[1/2, 1/2, 1/2], the target offsets are not [500, 1400, 2050] and the waits
from elapsed = 0 are not [500, 900, 650]: the third target is
1800 + 700/2 = 2150, not 2050. -/
theorem phaseTimelineExampleCounterexample :
    targetOffsets [1000, 800, 700] [1/2, 1/2, 1/2] ≠ [500, 1400, 2050] ∧
    scheduleWaits (targetOffsets [1000, 800, 700] [1/2, 1/2, 1/2]) 0
      ≠ [500, 900, 650] := by
  constructor <;>
    norm_num [cumulativeOffsets, targetOffsets, scheduleWaits, scheduleSteps]

/-- C1 (amended): for the 3-phase sequence with nominal durations
[1000, 800, 700] and fractions [1/2, 1/2, 1/2], the cumulative offsets are
[0, 1000, 1800] as claimed, but the target offsets are [500, 1400, 2150] and
starting from elapsed = 0 the computed waits are [500, 900, 750], summing to
2150. -/
theorem phaseTimelineExampleMath :
    cumulativeOffsets [1000, 800, 700] = [0, 1000, 1800] ∧
    targetOffsets [1000, 800, 700] [1/2, 1/2, 1/2] = [500, 1400, 2150] ∧
    scheduleWaits (targetOffsets [1000, 800, 700] [1/2, 1/2, 1/2]) 0
      = [500, 900, 750] ∧
    (scheduleWaits (targetOffsets [1000, 800, 700] [1/2, 1/2, 1/2]) 0).sum
      = 2150 := by
  refine ⟨?_, ?_, ?_, ?_⟩ <;>
    norm_num [cumulativeOffsets, targetOffsets, scheduleWaits, scheduleSteps]

/-- C2: for every phase processed by the scheduler, the issued wait is never
negative, a wait of exactly zero is issued whenever the elapsed time already
meets or exceeds the phase's target offset, and a capture step is emitted for
every phase. -/
theorem schedulerDriftCorrection (targets : List ℚ) (elapsed : ℚ) :
    (scheduleSteps targets elapsed).length = targets.length ∧
    ∀ s ∈ scheduleSteps targets elapsed,
      0 ≤ s.wait ∧ (s.target ≤ s.elapsedBefore → s.wait = 0) := by
  induction targets generalizing elapsed with
  | nil => simp [scheduleSteps]
  | cons t ts ih =>
    by_cases h : elapsed < t
    · refine ⟨by simp [scheduleSteps, h, (ih t).1], ?_⟩
      intro s hs
      rw [scheduleSteps, if_pos h] at hs
      rcases List.mem_cons.mp hs with rfl | hs
      · exact ⟨by simpa using h.le, fun hle => absurd h (not_lt.mpr hle)⟩
      · exact (ih t).2 s hs
    · refine ⟨by simp [scheduleSteps, h, (ih elapsed).1], ?_⟩
      intro s hs
      rw [scheduleSteps, if_neg h] at hs
      rcases List.mem_cons.mp hs with rfl | hs
      · exact ⟨le_refl 0, fun _ => rfl⟩
      · exact (ih elapsed).2 s hs

/-- Witness for C2 at a concrete late phase: with targets [100, 50] and
elapsed 0, the second phase is processed with elapsed 100 beyond its target 50
and receives a zero wait. -/
theorem schedulerDriftCorrectionWitness :
    0 ≤ (PhaseStep.mk 50 100 0).wait ∧ (PhaseStep.mk 50 100 0).wait = 0 := by
  have h := (schedulerDriftCorrection [100, 50] 0).2 (PhaseStep.mk 50 100 0)
    (by norm_num [scheduleSteps])
  exact ⟨h.1, h.2 (by norm_num)⟩

/-- C3: the scheduler contains no hardcoded timing: its instruction sequence is
a function of the caller-supplied durations and fractions alone, so two calls
supplying the same durations and fractions produce identical waits. -/
theorem schedulerParameterized (d₁ f₁ d₂ f₂ : List ℚ)
    (hd : d₁ = d₂) (hf : f₁ = f₂) :
    scheduleInstructions d₁ f₁ = scheduleInstructions d₂ f₂ := by
  rw [hd, hf]

/-- Witness for C3: two calls with durations [1000, 800, 700] and fractions
[1/2, 1/2, 1/2] produce the same instruction sequence. -/
theorem schedulerParameterizedWitness :
    scheduleInstructions [1000, 800, 700] [1/2, 1/2, 1/2]
      = scheduleInstructions [1000, 800, 700] [1/2, 1/2, 1/2] :=
  schedulerParameterized [1000, 800, 700] [1/2, 1/2, 1/2]
    [1000, 800, 700] [1/2, 1/2, 1/2] rfl rfl

/-- C4 (counterexample): in verify_chaos_shuffle.py a readiness-wait failure
after the browser is opened skips browser.close(): close is observed zero
times, not once. -/
theorem chaosShuffleSkipsCloseOnError :
    countEvent Event.close
      (chaosShuffleRun
        ⟨Outcome.ok, Outcome.raises "ReadinessTimeout", Outcome.ok,
         Outcome.ok, Outcome.ok, Outcome.ok⟩).1 = 0 := by
  rfl

/-- C4 (amended): verify_drag_layout.py invokes close exactly once for every
combination of step outcomes, its finally block; verify_chaos_shuffle.py,
which has no such handler, invokes close exactly once on the success path
only. -/
theorem sessionTeardownAmended :
    (∀ o : DragOuts, countEvent Event.close (dragLayoutRun o).1 = 1) ∧
    countEvent Event.close
      (chaosShuffleRun
        ⟨Outcome.ok, Outcome.ok, Outcome.ok, Outcome.ok, Outcome.ok,
         Outcome.ok⟩).1 = 1 := by
  constructor
  · rintro ⟨g, w₁, c, w₂, s, d⟩
    cases g <;> cases w₁ <;> cases c <;> cases w₂ <;> cases s <;> cases d <;>
      simp [dragLayoutRun, dragLayoutTry, runSteps, countEvent]
  · rfl

/-- C5: in verify_layout.py's navigation prologue, a successful first goto
issues exactly one navigation and no error; a failed first goto is retried
exactly once (two navigations), after which a successful retry yields no
error and a failed retry surfaces its error to the caller. -/
theorem navigationRetryOnce (r : Outcome) (e e₂ : String) :
    countMatching isNavigate (layoutNavigate Outcome.ok r).1 = 1 ∧
    (layoutNavigate Outcome.ok r).2 = none ∧
    countMatching isNavigate
      (layoutNavigate (Outcome.raises e) Outcome.ok).1 = 2 ∧
    (layoutNavigate (Outcome.raises e) Outcome.ok).2 = none ∧
    countMatching isNavigate
      (layoutNavigate (Outcome.raises e) (Outcome.raises e₂)).1 = 2 ∧
    (layoutNavigate (Outcome.raises e) (Outcome.raises e₂)).2
      = some { msg := e₂, context := some e } := by
  refine ⟨?_, rfl, ?_, rfl, ?_, rfl⟩ <;>
    simp [layoutNavigate, countMatching, isNavigate]

/-- C6: whenever the try block of verify_drag_layout.py raises after the
session is opened, the run attempts exactly one diagnostic capture to the
fixed error path, records the original error, proceeds to teardown as its
last action, and any propagated exception from a failed diagnostic capture
carries the original error as its context rather than replacing it. -/
theorem faultReporterDiagnostic (o : DragOuts) (e : String)
    (h : (runSteps (dragLayoutTry o)).2 = some e) :
    countEvent (Event.screenshot "verification/error_state.png")
      (dragLayoutRun o).1 = 1 ∧
    Event.printMsg ("Error during verification: " ++ e) ∈ (dragLayoutRun o).1 ∧
    lastEvent (dragLayoutRun o).1 = some Event.close ∧
    ∀ r, (dragLayoutRun o).2 = some r → r.context = some e := by
  rcases o with ⟨g, w₁, c, w₂, s, d⟩
  cases g <;> cases w₁ <;> cases c <;> cases w₂ <;> cases s <;> cases d <;>
    simp_all [dragLayoutRun, dragLayoutTry, runSteps, countEvent, lastEvent]

/-- Witness for C6: a run whose navigation raises and whose diagnostic capture
also raises still performs exactly one diagnostic capture, and the propagated
exception keeps the original error as context. -/
theorem faultReporterDiagnosticWitness :
    countEvent (Event.screenshot "verification/error_state.png")
      (dragLayoutRun
        ⟨Outcome.raises "NavigationError", Outcome.ok, Outcome.ok, Outcome.ok,
         Outcome.ok, Outcome.raises "CaptureFailed"⟩).1 = 1 ∧
    (Raised.mk "CaptureFailed" (some "NavigationError")).context
      = some "NavigationError" := by
  have h := faultReporterDiagnostic
    ⟨Outcome.raises "NavigationError", Outcome.ok, Outcome.ok, Outcome.ok,
     Outcome.ok, Outcome.raises "CaptureFailed"⟩ "NavigationError" rfl
  exact ⟨h.1, h.2.2.2 (Raised.mk "CaptureFailed" (some "NavigationError")) rfl⟩

/-- C7: a click without force against a visually occluded target is rejected
with ElementNotInteractable, while a force click against the same occluded
target bypasses the occlusion check and dispatches the click to the target. -/
theorem forceClickBypassesOcclusion (st : PageState) (sel : String)
    (h : st.occludedBy sel = true) :
    click st sel false
      = ClickOutcome.rejected HarnessError.elementNotInteractable ∧
    click st sel true = ClickOutcome.dispatched sel := by
  constructor
  · simp [click, h]
  · simp [click]

/-- Witness for C7 on a page whose deck slot is occluded, as in
src/verify_spacing.py. -/
theorem forceClickBypassesOcclusionWitness :
    click ⟨fun _ => true⟩ "#slot-deck" false
      = ClickOutcome.rejected HarnessError.elementNotInteractable ∧
    click ⟨fun _ => true⟩ "#slot-deck" true
      = ClickOutcome.dispatched "#slot-deck" :=
  forceClickBypassesOcclusion ⟨fun _ => true⟩ "#slot-deck" rfl

/-- C8: a scoped capture whose selector resolves to zero elements fails with
ElementNotFound, while the capture tail of verify_layout.py, which checks the
element count first and falls back to a full-page capture, completes without
error for every resolver. -/
theorem captureScopedFallback (resolve : String → Nat) (sel path : String)
    (h : resolve sel = 0) :
    capture resolve (CaptureTarget.scopedElement sel) path
      = Except.error HarnessError.elementNotFound ∧
    (layoutCaptureTail resolve).2 = none := by
  constructor
  · simp [capture, h]
  · unfold layoutCaptureTail
    by_cases h₀ : resolve "#player-table-slot-0" > 0
    · have hne : ¬ resolve "#player-table-slot-0" = 0 :=
        Nat.pos_iff_ne_zero.mp h₀
      simp [h₀, capture, hne]
    · simp [h₀, capture]

/-- Witness for C8 with a resolver on which every selector is absent. -/
theorem captureScopedFallbackWitness :
    capture (fun _ => 0) (CaptureTarget.scopedElement "#player-table-slot-0")
      "/home/jules/verification/player_slot_0.png"
      = Except.error HarnessError.elementNotFound ∧
    (layoutCaptureTail (fun _ => 0)).2 = none :=
  captureScopedFallback (fun _ => 0) "#player-table-slot-0"
    "/home/jules/verification/player_slot_0.png" rfl

/-- The constant float019 is the correctly rounded double of 0.19: it differs
from 19/100 by strictly less than a half ulp of the binade [1/8, 1/4), which
is 2^-56. -/
theorem float019_correctly_rounded : |(19 : ℚ) / 100 - float019| < 1 / 2 ^ 56 := by
  rw [show (19 : ℚ) / 100 - float019 = -(2 / (25 * 2 ^ 55)) by
    norm_num [float019]]
  rw [abs_neg, abs_of_nonneg (by positivity)]
  norm_num

/-- The constant expectedWidth is the correctly rounded double of the exact
product 390 * float019: it differs from it by strictly less than a half ulp of
the binade [64, 128), which is 2^-47. -/
theorem expectedWidth_correctly_rounded :
    |390 * float019 - expectedWidth| < 1 / 2 ^ 47 := by
  rw [show 390 * float019 - expectedWidth = 236 / 2 ^ 55 by
    norm_num [float019, expectedWidth]]
  rw [abs_of_nonneg (by positivity)]
  norm_num

/-- The rational 5355061431920230 / 2^46 is the correctly rounded double of a
measured width of 76.1: it differs from 761/10 by strictly less than a half
ulp of the binade [64, 128). -/
theorem width761_correctly_rounded :
    |(761 : ℚ) / 10 - 5355061431920230 / 2 ^ 46| < 1 / 2 ^ 47 := by
  rw [show (761 : ℚ) / 10 - 5355061431920230 / 2 ^ 46 = 4 / (10 * 2 ^ 46) by
    norm_num]
  rw [abs_of_nonneg (by positivity)]
  norm_num

/-- C9 (counterexample): at the measured width fl(76.1) =
5355061431920230 / 2^46, a representable bounding-box value, the check warns
(the float difference from expected_width is exactly 2), although the
measured width is strictly within 2 pixels of 74.1: the claim's
success-iff-within-2-of-74.1 biconditional fails on the code. -/
theorem mobileScaleToleranceCounterexample :
    mobileScaleVerdict (5355061431920230 / 2 ^ 46) = ScaleVerdict.warning ∧
    |(5355061431920230 : ℚ) / 2 ^ 46 - 741 / 10| < 2 := by
  constructor
  · unfold mobileScaleVerdict
    rw [show (5355061431920230 / 2 ^ 46 : ℚ) - expectedWidth = 2 by
      norm_num [expectedWidth]]
    norm_num
  · rw [show (5355061431920230 : ℚ) / 2 ^ 46 - 741 / 10
        = 1407374883553276 / (10 * 2 ^ 46) by norm_num]
    rw [abs_of_nonneg (by positivity)]
    norm_num

/-- C9 (amended): the mobile-scale check succeeds exactly when the measured
width is strictly within 2 pixels of the float64 value of 390 * 0.19, which
is 5214323943564902 / 2^46 = 74.09999999999999431... rather than 74.1 exactly;
it warns exactly when that difference is 2 pixels or more, and in either case
the run proceeds to close the browser rather than aborting. -/
theorem mobileScaleTolerance :
    expectedWidth = 5214323943564902 / 2 ^ 46 ∧
    ∀ w : ℚ,
      (mobileScaleVerdict w = ScaleVerdict.success ↔
        |w - 5214323943564902 / 2 ^ 46| < 2) ∧
      (mobileScaleVerdict w = ScaleVerdict.warning ↔
        2 ≤ |w - 5214323943564902 / 2 ^ 46|) ∧
      Event.close ∈ mobileScaleBoxEvents w ∧
      lastEvent (mobileScaleBoxEvents w) = some Event.close := by
  have he : expectedWidth = 5214323943564902 / 2 ^ 46 := by
    norm_num [expectedWidth]
  refine ⟨he, fun w => ?_⟩
  by_cases hw : |w - expectedWidth| < 2
  · refine ⟨?_, ?_, ?_, ?_⟩
    · rw [← he]; simp [mobileScaleVerdict, hw]
    · rw [← he]; simp [mobileScaleVerdict, hw, not_le]
    · simp [mobileScaleBoxEvents]
    · simp [mobileScaleBoxEvents, lastEvent]
  · refine ⟨?_, ?_, ?_, ?_⟩
    · rw [← he]; simp [mobileScaleVerdict, hw]
    · rw [← he]; simp [mobileScaleVerdict, hw, not_lt.mp hw]
    · simp [mobileScaleBoxEvents]
    · simp [mobileScaleBoxEvents, lastEvent]

/-- C10: the drag-layout placeholder run performs no navigation, no readiness
wait, no interaction and no capture: it launches a browser once, closes it
once, and writes no output file. -/
theorem dragPlaceholderNoEffects :
    writesOf dragPlaceholderRun = [] ∧
    countMatching isNavigate dragPlaceholderRun = 0 ∧
    countMatching isWaitSelector dragPlaceholderRun = 0 ∧
    countMatching isClick dragPlaceholderRun = 0 ∧
    countMatching isScreenshot dragPlaceholderRun = 0 ∧
    countEvent Event.launch dragPlaceholderRun = 1 ∧
    countEvent Event.close dragPlaceholderRun = 1 := by
  refine ⟨rfl, rfl, rfl, rfl, rfl, rfl, rfl⟩

end Quatch
